import Mathlib

set_option maxHeartbeats 1000000
set_option maxRecDepth 10000

/-
Shallow embedding of `metropolia_dashboard.py` (class `IoTDataStream` and the
classification helper it exposes).  Python floats are modelled as rationals;
every random draw (`random.gauss`, `random.randint`) and every clock read
(`datetime.now()`) is an explicit input to the operation that consumes it.
`collections.deque(maxlen=m)` is modelled as a list kept to its last `m`
elements on append.
-/

/-- The eight keys of the `self.sensors` dict built in `IoTDataStream.__init__`. -/
inductive SensorId
  | downtown
  | airport
  | industrial
  | residential_north
  | residential_south
  | highway_i95
  | stadium
  | university
deriving DecidableEq, Repr

/-- One entry of `self.sensors`: latitude, longitude and the category tag. -/
structure SensorInfo where
  lat : ℚ
  lon : ℚ
  category : String
deriving DecidableEq, Repr

/-- The fixed `self.sensors` table from `IoTDataStream.__init__`. -/
def sensorsTable : SensorId → SensorInfo
  | .downtown => ⟨40.758, -73.985, "environmental"⟩
  | .airport => ⟨40.641, -73.778, "transportation"⟩
  | .industrial => ⟨40.689, -74.044, "energy"⟩
  | .residential_north => ⟨40.817, -73.978, "environmental"⟩
  | .residential_south => ⟨40.678, -73.944, "environmental"⟩
  | .highway_i95 => ⟨40.750, -73.870, "transportation"⟩
  | .stadium => ⟨40.758, -73.848, "energy"⟩
  | .university => ⟨40.807, -73.962, "environmental"⟩

/-- One per-sensor readings dict, `self.sensor_values[k]`. -/
structure SensorVals where
  temperature : ℚ
  humidity : ℚ
  aqi : ℚ
  traffic_density : ℚ
  vehicle_speed : ℚ
  energy_kw : ℚ
deriving DecidableEq, Repr

/-- The random draws consumed by one call of `IoTDataStream._init_sensor`.
`random.randint(20, 80)` is modelled as `20 + r_density % 61`, which ranges
over exactly the integers 20..80. -/
structure InitSensorRand where
  g_temp : ℚ
  g_hum : ℚ
  g_aqi : ℚ
  r_density : ℕ
  g_speed : ℚ
  g_energy : ℚ

/-- `IoTDataStream._init_sensor`. -/
def init_sensor (r : InitSensorRand) : SensorVals :=
  { temperature := 22 + r.g_temp
    humidity := 50 + r.g_hum
    aqi := 50 + r.g_aqi
    traffic_density := ((20 + r.r_density % 61 : ℕ) : ℚ)
    vehicle_speed := 40 + r.g_speed
    energy_kw := 500 + r.g_energy }

/-- The whole mutable state of one `IoTDataStream` instance: the seven
bounded deques, the (never rewritten) sensor table and the per-sensor
current values.  The global `traffic_density` deque holds Python ints
(`random.randint` results), hence `List ℤ`. -/
structure GenState where
  max_points : ℕ
  timestamps : List ℕ
  temperature : List ℚ
  humidity : List ℚ
  aqi : List ℚ
  traffic_density : List ℤ
  vehicle_speed : List ℚ
  energy_consumption : List ℚ
  sensors : SensorId → SensorInfo
  sensor_values : SensorId → SensorVals

/-- `deque.append` under `maxlen = m`: the new element goes to the tail and
the list is trimmed to its last `m` elements (evicting from the head). -/
def appendBounded {α : Type} (m : ℕ) (xs : List α) (x : α) : List α :=
  (xs ++ [x]).rtake m

/-- The per-sensor random draws consumed by one tick for one sensor id.
`random.randint(-5, 5)` is modelled as `(r_density % 11) - 5` over ℤ, which
ranges over exactly the integers -5..5. -/
structure SensorRand where
  g_temp : ℚ
  g_aqi : ℚ
  r_density : ℕ
  g_speed : ℚ

/-- The inputs of one `generate_tick` call that the code obtains from
`random` and `numpy`.  `sin_h` stands for the value
`np.sin((hour - 6) * np.pi / 12)`; it is deterministic in `hour` but is left
as an input because no claim constrains it.  `random.randint(30, 95)` is
modelled as `30 + r_density % 66`, exactly the integers 30..95. -/
structure TickRand where
  sin_h : ℚ
  g_temp : ℚ
  g_hum : ℚ
  g_tf : ℚ
  g_aqi : ℚ
  r_density : ℕ
  g_speed : ℚ
  g_energy : ℚ
  sensor : SensorId → SensorRand

/-- `IoTDataStream._get_avg_traffic_factor`, with the Gaussian draw `g`
explicit (the code draws with σ 0.1, 0.1 or 0.05 depending on the branch). -/
def get_avg_traffic_factor (hour : ℕ) (g : ℚ) : ℚ :=
  if (7 ≤ hour ∧ hour ≤ 9) ∨ (17 ≤ hour ∧ hour ≤ 19) then 0.8 + g
  else if 10 ≤ hour ∧ hour ≤ 16 then 0.5 + g
  else 0.2 + g

/-- The deterministic part of the energy sample in `generate_tick`:
`energy_base = 400 + 200 * (1 if 9 <= hour <= 18 else 0.3)`. -/
def energy_base (hour : ℕ) : ℚ :=
  400 + 200 * (if 9 ≤ hour ∧ hour ≤ 18 then 1 else 0.3)

/-- `IoTDataStream.generate_tick`.  `now` is the timestamp appended to
`self.timestamps`, `hour` is `now.hour`, and `r` carries every random draw
of this call. -/
def generate_tick (now : ℕ) (hour : ℕ) (r : TickRand) (s : GenState) : GenState :=
  let m := s.max_points
  let tf := get_avg_traffic_factor hour r.g_tf
  { s with
    timestamps := appendBounded m s.timestamps now
    temperature := appendBounded m s.temperature (20 + 8 * r.sin_h + r.g_temp)
    humidity := appendBounded m s.humidity (60 - 10 * r.sin_h + r.g_hum)
    aqi := appendBounded m s.aqi (max 0 (40 + tf * 30 + r.g_aqi))
    traffic_density := appendBounded m s.traffic_density (30 + ((r.r_density % 66 : ℕ) : ℤ))
    vehicle_speed := appendBounded m s.vehicle_speed (max 5 (60 - tf * 30 + r.g_speed))
    energy_consumption := appendBounded m s.energy_consumption (energy_base hour + r.g_energy)
    sensor_values := fun id =>
      let v := s.sensor_values id
      let sr := r.sensor id
      { v with
        temperature := v.temperature + sr.g_temp
        aqi := max 0 (v.aqi + sr.g_aqi)
        traffic_density := max 0 (min 100 (v.traffic_density + (((sr.r_density % 11 : ℕ) : ℚ) - 5)))
        vehicle_speed := max 5 (v.vehicle_speed + sr.g_speed) } }

/-- The environment inputs of one `generate_tick` call. -/
structure TickInput where
  now : ℕ
  hour : ℕ
  rand : TickRand

/-- Run `generate_tick` once per entry of `ticks`, in order. -/
def foldTicks (ticks : List TickInput) (s : GenState) : GenState :=
  ticks.foldl (fun a t => generate_tick t.now t.hour t.rand a) s

/-- The only error Python can raise in `IoTDataStream.__init__`:
`deque(maxlen=m)` raises `ValueError` when `maxlen` is negative.  The code
defines no `ConfigurationError` and performs no validation of its own. -/
inductive PyError
  | valueError
deriving DecidableEq, Repr

/-- The state set up by `IoTDataStream.__init__` before its warm-up loop:
empty deques, the fixed sensor table, and `_init_sensor()` for every key. -/
def init0 (m : ℕ) (ir : SensorId → InitSensorRand) : GenState :=
  { max_points := m
    timestamps := []
    temperature := []
    humidity := []
    aqi := []
    traffic_density := []
    vehicle_speed := []
    energy_consumption := []
    sensors := sensorsTable
    sensor_values := fun id => init_sensor (ir id) }

/-- `IoTDataStream.__init__(max_points)`: creating `deque(maxlen=max_points)`
raises `ValueError` for a negative capacity and accepts `0`; afterwards the
constructor runs `generate_tick()` once per entry of `boot` (the source runs
the loop exactly 50 times: `for _ in range(50): self.generate_tick()`). -/
def pyInit (max_points : ℤ) (ir : SensorId → InitSensorRand)
    (boot : List TickInput) : Except PyError GenState :=
  if max_points < 0 then .error .valueError
  else .ok (foldTicks boot (init0 max_points.toNat ir))

/-- The module-level `AQI_COLORS` list. -/
def AQI_COLORS : List String :=
  ["#00E400", "#FFFF00", "#FF7E00", "#FF0000", "#8F3F97", "#7E0023"]

/-- The module-level `AQI_LABELS` list: the six ordered severity bands,
paired index-by-index with `AQI_COLORS`. -/
def AQI_LABELS : List String :=
  ["Good", "Moderate", "Unhealthy for Sensitive", "Unhealthy", "Very Unhealthy", "Hazardous"]

/-- `IoTDataStream.get_aqi_color`: the band classifier, returning the hex
color of the band (the color at index i of `AQI_COLORS` stands for the band
at index i of `AQI_LABELS`). -/
def get_aqi_color (aqi : ℚ) : String :=
  if aqi ≤ 50 then "#00E400"
  else if aqi ≤ 100 then "#FFFF00"
  else if aqi ≤ 150 then "#FF7E00"
  else if aqi ≤ 200 then "#FF0000"
  else if aqi ≤ 300 then "#8F3F97"
  else "#7E0023"

/-- The list-valued part of the dict returned by
`IoTDataStream.get_current_data`: the seven sequences, each copied by value
(`list(self.timestamps)` and so on). -/
structure CurrentData where
  timestamps : List ℕ
  temperature : List ℚ
  humidity : List ℚ
  aqi : List ℚ
  traffic_density : List ℤ
  vehicle_speed : List ℚ
  energy_consumption : List ℚ
deriving DecidableEq, Repr

/-- `IoTDataStream.get_current_data`, restricted to its seven copied list
entries. -/
def get_current_data (s : GenState) : CurrentData :=
  ⟨s.timestamps, s.temperature, s.humidity, s.aqi,
   s.traffic_density, s.vehicle_speed, s.energy_consumption⟩

/-- Reading the seven sequence entries of a snapshot returned earlier.
`get_current_data` copies each deque (`list(...)`), so the read returns the
value at snapshot time, whatever the generator state `_current` is now. -/
def snapshot_lists_read (atSnap : GenState) (_current : GenState) : CurrentData :=
  get_current_data atSnap

/-- Reading the `sensor_values` entry of a snapshot returned earlier.
`get_current_data` stores `self.sensor_values` itself (a live reference, no
copy), so a read through any earlier snapshot sees the generator state at
read time, not at snapshot time. -/
def snapshot_sensor_values_read (current : GenState) : SensorId → SensorVals :=
  current.sensor_values

/-- Reading the `sensors` entry of a snapshot returned earlier; also a live
reference into the generator (`'sensors': self.sensors`). -/
def snapshot_sensors_read (current : GenState) : SensorId → SensorInfo :=
  current.sensors

/-- The seven sequences have identical length. -/
def EqLen (s : GenState) : Prop :=
  s.timestamps.length = s.temperature.length ∧
  s.timestamps.length = s.humidity.length ∧
  s.timestamps.length = s.aqi.length ∧
  s.timestamps.length = s.traffic_density.length ∧
  s.timestamps.length = s.vehicle_speed.length ∧
  s.timestamps.length = s.energy_consumption.length

/-- All-zero sensor-init randomness, for concrete instances. -/
def dIR : SensorId → InitSensorRand := fun _ => ⟨0, 0, 0, 0, 0, 0⟩

/-- All-zero per-sensor tick randomness. -/
def dSR : SensorRand := ⟨0, 0, 0, 0⟩

/-- All-zero tick randomness. -/
def dTR : TickRand := ⟨0, 0, 0, 0, 0, 0, 0, 0, fun _ => dSR⟩

/-- A tick input with time 0 and all-zero randomness. -/
def dTI : TickInput := ⟨0, 0, dTR⟩

/-- A tick input with timestamp 100 and all-zero randomness. -/
def tA : TickInput := ⟨100, 0, dTR⟩

/-- A tick input with timestamp 200 and all-zero randomness. -/
def tB : TickInput := ⟨200, 0, dTR⟩

/-- Tick randomness whose only nonzero draw bumps every per-sensor
temperature by 1. -/
def rBump : TickRand := { dTR with sensor := fun _ => { dSR with g_temp := 1 } }

/- Helper lemmas about the embedding. -/

theorem generate_tick_max_points (now hour : ℕ) (r : TickRand) (s : GenState) :
    (generate_tick now hour r s).max_points = s.max_points := rfl

theorem generate_tick_sensors (now hour : ℕ) (r : TickRand) (s : GenState) :
    (generate_tick now hour r s).sensors = s.sensors := rfl

theorem generate_tick_timestamps (now hour : ℕ) (r : TickRand) (s : GenState) :
    (generate_tick now hour r s).timestamps = appendBounded s.max_points s.timestamps now := rfl

theorem generate_tick_temperature (now hour : ℕ) (r : TickRand) (s : GenState) :
    (generate_tick now hour r s).temperature
      = appendBounded s.max_points s.temperature (20 + 8 * r.sin_h + r.g_temp) := rfl

theorem generate_tick_humidity (now hour : ℕ) (r : TickRand) (s : GenState) :
    (generate_tick now hour r s).humidity
      = appendBounded s.max_points s.humidity (60 - 10 * r.sin_h + r.g_hum) := rfl

theorem generate_tick_aqi (now hour : ℕ) (r : TickRand) (s : GenState) :
    (generate_tick now hour r s).aqi
      = appendBounded s.max_points s.aqi
          (max 0 (40 + get_avg_traffic_factor hour r.g_tf * 30 + r.g_aqi)) := rfl

theorem generate_tick_traffic_density (now hour : ℕ) (r : TickRand) (s : GenState) :
    (generate_tick now hour r s).traffic_density
      = appendBounded s.max_points s.traffic_density (30 + ((r.r_density % 66 : ℕ) : ℤ)) := rfl

theorem generate_tick_vehicle_speed (now hour : ℕ) (r : TickRand) (s : GenState) :
    (generate_tick now hour r s).vehicle_speed
      = appendBounded s.max_points s.vehicle_speed
          (max 5 (60 - get_avg_traffic_factor hour r.g_tf * 30 + r.g_speed)) := rfl

theorem generate_tick_energy (now hour : ℕ) (r : TickRand) (s : GenState) :
    (generate_tick now hour r s).energy_consumption
      = appendBounded s.max_points s.energy_consumption (energy_base hour + r.g_energy) := rfl

theorem generate_tick_sensor_values (now hour : ℕ) (r : TickRand) (s : GenState) (id : SensorId) :
    (generate_tick now hour r s).sensor_values id
      = { s.sensor_values id with
          temperature := (s.sensor_values id).temperature + (r.sensor id).g_temp
          aqi := max 0 ((s.sensor_values id).aqi + (r.sensor id).g_aqi)
          traffic_density := max 0 (min 100 ((s.sensor_values id).traffic_density
              + ((((r.sensor id).r_density % 11 : ℕ) : ℚ) - 5)))
          vehicle_speed := max 5 ((s.sensor_values id).vehicle_speed + (r.sensor id).g_speed) } := rfl

theorem init0_max_points (m : ℕ) (ir : SensorId → InitSensorRand) :
    (init0 m ir).max_points = m := rfl

theorem foldTicks_nil (s : GenState) : foldTicks [] s = s := rfl

theorem foldTicks_cons (t : TickInput) (ts : List TickInput) (s : GenState) :
    foldTicks (t :: ts) s = foldTicks ts (generate_tick t.now t.hour t.rand s) := rfl

theorem foldTicks_append (a b : List TickInput) (s : GenState) :
    foldTicks (a ++ b) s = foldTicks b (foldTicks a s) :=
  List.foldl_append ..

theorem foldTicks_concat (ts : List TickInput) (t : TickInput) (s : GenState) :
    foldTicks (ts ++ [t]) s = generate_tick t.now t.hour t.rand (foldTicks ts s) := by
  rw [foldTicks_append]; rfl

theorem foldTicks_max_points (ticks : List TickInput) (s : GenState) :
    (foldTicks ticks s).max_points = s.max_points := by
  induction ticks generalizing s with
  | nil => rfl
  | cons t ts ih => rw [foldTicks_cons, ih, generate_tick_max_points]

theorem foldTicks_sensors (ticks : List TickInput) (s : GenState) :
    (foldTicks ticks s).sensors = s.sensors := by
  induction ticks generalizing s with
  | nil => rfl
  | cons t ts ih => rw [foldTicks_cons, ih, generate_tick_sensors]

theorem appendBounded_length {α : Type} (m : ℕ) (xs : List α) (x : α) :
    (appendBounded m xs x).length = min (xs.length + 1) m := by
  simp only [appendBounded, List.rtake, List.length_drop, List.length_append,
    List.length_singleton]
  omega

theorem appendBounded_succ {α : Type} (m : ℕ) (xs : List α) (x : α) :
    appendBounded (m + 1) xs x = xs.rtake m ++ [x] := by
  simp [appendBounded, List.rtake_concat_succ]

theorem appendBounded_pos {α : Type} {m : ℕ} (hm : 0 < m) (xs : List α) (x : α) :
    appendBounded m xs x = xs.rtake (m - 1) ++ [x] := by
  obtain ⟨k, rfl⟩ := Nat.exists_eq_succ_of_ne_zero (Nat.pos_iff_ne_zero.mp hm)
  simp [appendBounded_succ]

theorem appendBounded_getLastD {α : Type} {m : ℕ} (hm : 0 < m) (xs : List α) (x d : α) :
    (appendBounded m xs x).getLastD d = x := by
  rw [appendBounded_pos hm]
  simp [List.getLastD_eq_getLast?, List.getLast?_concat]

theorem appendBounded_ne_nil {α : Type} {m : ℕ} (hm : 0 < m) (xs : List α) (x : α) :
    appendBounded m xs x ≠ [] := by
  rw [appendBounded_pos hm]; simp

theorem rtake_of_length_le {α : Type} {m : ℕ} {l : List α} (h : l.length ≤ m) :
    l.rtake m = l := by
  simp [List.rtake, Nat.sub_eq_zero_of_le h]

theorem rtake_append_rtake {α : Type} (m : ℕ) (xs ys : List α) :
    ((xs.rtake m) ++ ys).rtake m = (xs ++ ys).rtake m := by
  simp only [List.rtake_eq_reverse_take_reverse, List.reverse_append, List.reverse_reverse]
  congr 1
  rw [List.take_append_eq_append_take, List.take_append_eq_append_take, List.take_take,
    Nat.min_eq_left (Nat.sub_le m ys.reverse.length)]

theorem rtake_append_right {α : Type} (m : ℕ) (xs ys : List α) (h : m ≤ ys.length) :
    (xs ++ ys).rtake m = ys.rtake m := by
  simp only [List.rtake_eq_reverse_take_reverse, List.reverse_append]
  congr 1
  have h0 : m - ys.reverse.length = 0 := by
    simp only [List.length_reverse]; omega
  rw [List.take_append_eq_append_take, h0]
  simp

theorem head_drop_one {α : Type} : ∀ (l : List α), (l.drop 1).head? = l[1]?
  | [] => rfl
  | [_] => rfl
  | _ :: _ :: _ => by simp

theorem getLast_drop_one {α : Type} : ∀ (l : List α), 2 ≤ l.length →
    (l.drop 1).getLast? = l.getLast?
  | [], h => by simp at h
  | [_], h => by simp at h
  | _ :: _ :: _, _ => by simp [List.getLast?_cons_cons]

theorem pyInit_ok (mp : ℤ) (ir : SensorId → InitSensorRand) (boot : List TickInput)
    (s0 : GenState) (h : pyInit mp ir boot = .ok s0) :
    s0 = foldTicks boot (init0 mp.toNat ir) := by
  unfold pyInit at h
  split at h
  · exact absurd h (by simp)
  · injection h with h2
    exact h2.symm

theorem foldTicks_init0_lengths (m : ℕ) (ir : SensorId → InitSensorRand)
    (ticks : List TickInput) :
    (foldTicks ticks (init0 m ir)).timestamps.length = min ticks.length m ∧
    (foldTicks ticks (init0 m ir)).temperature.length = min ticks.length m ∧
    (foldTicks ticks (init0 m ir)).humidity.length = min ticks.length m ∧
    (foldTicks ticks (init0 m ir)).aqi.length = min ticks.length m ∧
    (foldTicks ticks (init0 m ir)).traffic_density.length = min ticks.length m ∧
    (foldTicks ticks (init0 m ir)).vehicle_speed.length = min ticks.length m ∧
    (foldTicks ticks (init0 m ir)).energy_consumption.length = min ticks.length m := by
  induction ticks using List.reverseRecOn with
  | nil => simp [init0, foldTicks]
  | append_singleton ts t ih =>
    obtain ⟨h1, h2, h3, h4, h5, h6, h7⟩ := ih
    simp only [foldTicks_concat, generate_tick_timestamps, generate_tick_temperature,
      generate_tick_humidity, generate_tick_aqi, generate_tick_traffic_density,
      generate_tick_vehicle_speed, generate_tick_energy, appendBounded_length,
      foldTicks_max_points, init0_max_points, h1, h2, h3, h4, h5, h6, h7,
      List.length_append, List.length_singleton]
    omega

theorem foldTicks_timestamps (ticks : List TickInput) (s : GenState)
    (h : s.timestamps.length ≤ s.max_points) :
    (foldTicks ticks s).timestamps
      = (s.timestamps ++ ticks.map TickInput.now).rtake s.max_points := by
  induction ticks generalizing s with
  | nil =>
    simp only [foldTicks_nil, List.map_nil, List.append_nil]
    exact (rtake_of_length_le h).symm
  | cons t ts ih =>
    have hlen : (generate_tick t.now t.hour t.rand s).timestamps.length
        ≤ (generate_tick t.now t.hour t.rand s).max_points := by
      rw [generate_tick_timestamps, generate_tick_max_points, appendBounded_length]
      exact Nat.min_le_right _ _
    rw [foldTicks_cons, ih _ hlen, generate_tick_timestamps, generate_tick_max_points]
    rw [appendBounded, rtake_append_rtake]
    simp [List.append_assoc]

/- Claim theorems. -/

/-- C5: `get_aqi_color` is a total, deterministic, side-effect-free function
classifying every AQI value into one of the six ordered bands (the color at
index i of `AQI_COLORS` stands for the label at index i of `AQI_LABELS`),
with breakpoints 50, 100, 150, 200, 300, each upper edge inclusive in the
lower band, and everything above 300 in the top band. -/
theorem classify_aqi_bands (v : ℚ) :
    get_aqi_color v ∈ AQI_COLORS ∧
    (v ≤ 50 → get_aqi_color v = "#00E400") ∧
    (50 < v → v ≤ 100 → get_aqi_color v = "#FFFF00") ∧
    (100 < v → v ≤ 150 → get_aqi_color v = "#FF7E00") ∧
    (150 < v → v ≤ 200 → get_aqi_color v = "#FF0000") ∧
    (200 < v → v ≤ 300 → get_aqi_color v = "#8F3F97") ∧
    (300 < v → get_aqi_color v = "#7E0023") := by
  unfold get_aqi_color AQI_COLORS
  split_ifs with h1 h2 h3 h4 h5 <;>
    refine ⟨by simp, ?_, ?_, ?_, ?_, ?_, ?_⟩ <;> intros <;> first | rfl | linarith

/-- Witness for C5: AQI 120 lands in the third band (100 < v ≤ 150). -/
theorem classify_aqi_bands_witness : get_aqi_color 120 = "#FF7E00" :=
  (classify_aqi_bands 120).2.2.2.1 (by norm_num) (by norm_num)

/-- C10: `get_aqi_color` imposes no non-negativity precondition: every
rational input gets one of the six band colors, and every value ≤ 50 —
negative values included — is classified into the lowest band. -/
theorem classify_aqi_total_on_negatives (v : ℚ) :
    get_aqi_color v ∈ AQI_COLORS ∧
    (v ≤ 50 → get_aqi_color v = "#00E400") ∧
    (v < 0 → get_aqi_color v = "#00E400") := by
  unfold get_aqi_color AQI_COLORS
  split_ifs with h1 h2 h3 h4 h5 <;>
    refine ⟨by simp, ?_, ?_⟩ <;> intros <;> first | rfl | linarith

/-- Witness for C10 at the negative input -25. -/
theorem classify_aqi_total_on_negatives_witness : get_aqi_color (-25) = "#00E400" :=
  (classify_aqi_total_on_negatives (-25)).2.2 (by norm_num)

/-- C3: after every tick, whatever the pre-tick state, the appended global
AQI is ≥ 0 and the appended global vehicle speed is ≥ 5, and every
location's state has AQI ≥ 0, vehicle speed ≥ 5 and traffic density in
[0, 100]. -/
theorem tick_floor_invariants (s : GenState) (now hour : ℕ) (r : TickRand)
    (id : SensorId) (h : 0 < s.max_points) :
    (generate_tick now hour r s).aqi ≠ [] ∧
    0 ≤ (generate_tick now hour r s).aqi.getLastD 0 ∧
    (generate_tick now hour r s).vehicle_speed ≠ [] ∧
    5 ≤ (generate_tick now hour r s).vehicle_speed.getLastD 0 ∧
    0 ≤ ((generate_tick now hour r s).sensor_values id).aqi ∧
    5 ≤ ((generate_tick now hour r s).sensor_values id).vehicle_speed ∧
    0 ≤ ((generate_tick now hour r s).sensor_values id).traffic_density ∧
    ((generate_tick now hour r s).sensor_values id).traffic_density ≤ 100 := by
  refine ⟨?_, ?_, ?_, ?_, ?_, ?_, ?_, ?_⟩
  · rw [generate_tick_aqi]; exact appendBounded_ne_nil h _ _
  · rw [generate_tick_aqi, appendBounded_getLastD h]; exact le_max_left _ _
  · rw [generate_tick_vehicle_speed]; exact appendBounded_ne_nil h _ _
  · rw [generate_tick_vehicle_speed, appendBounded_getLastD h]; exact le_max_left _ _
  · rw [generate_tick_sensor_values]; exact le_max_left _ _
  · rw [generate_tick_sensor_values]; exact le_max_left _ _
  · rw [generate_tick_sensor_values]; exact le_max_left _ _
  · rw [generate_tick_sensor_values]
    exact max_le (by norm_num) (min_le_left _ _)

/-- Witness for C3: one tick from the freshly initialized state with
capacity 1, inspected at the downtown sensor. -/
theorem tick_floor_invariants_witness :
    (generate_tick 0 0 dTR (init0 1 dIR)).aqi ≠ [] ∧
    0 ≤ (generate_tick 0 0 dTR (init0 1 dIR)).aqi.getLastD 0 ∧
    (generate_tick 0 0 dTR (init0 1 dIR)).vehicle_speed ≠ [] ∧
    5 ≤ (generate_tick 0 0 dTR (init0 1 dIR)).vehicle_speed.getLastD 0 ∧
    0 ≤ ((generate_tick 0 0 dTR (init0 1 dIR)).sensor_values SensorId.downtown).aqi ∧
    5 ≤ ((generate_tick 0 0 dTR (init0 1 dIR)).sensor_values SensorId.downtown).vehicle_speed ∧
    0 ≤ ((generate_tick 0 0 dTR (init0 1 dIR)).sensor_values SensorId.downtown).traffic_density ∧
    ((generate_tick 0 0 dTR (init0 1 dIR)).sensor_values SensorId.downtown).traffic_density ≤ 100 :=
  tick_floor_invariants (init0 1 dIR) 0 0 dTR SensorId.downtown (by decide)

/-- C9: every value the tick appends to the global traffic-density sequence
is an integer in [30, 95], whatever the hour and the prior state. -/
theorem traffic_density_sample_bounds (s : GenState) (now hour : ℕ) (r : TickRand)
    (h : 0 < s.max_points) :
    (generate_tick now hour r s).traffic_density ≠ [] ∧
    30 ≤ (generate_tick now hour r s).traffic_density.getLastD 0 ∧
    (generate_tick now hour r s).traffic_density.getLastD 0 ≤ 95 := by
  refine ⟨?_, ?_, ?_⟩
  · rw [generate_tick_traffic_density]; exact appendBounded_ne_nil h _ _
  · rw [generate_tick_traffic_density, appendBounded_getLastD h]; omega
  · rw [generate_tick_traffic_density, appendBounded_getLastD h]; omega

/-- Witness for C9: one tick from the freshly initialized state with
capacity 1. -/
theorem traffic_density_sample_bounds_witness :
    (generate_tick 0 0 dTR (init0 1 dIR)).traffic_density ≠ [] ∧
    30 ≤ (generate_tick 0 0 dTR (init0 1 dIR)).traffic_density.getLastD 0 ∧
    (generate_tick 0 0 dTR (init0 1 dIR)).traffic_density.getLastD 0 ≤ 95 :=
  traffic_density_sample_bounds (init0 1 dIR) 0 0 dTR (by decide)

/-- C4 counterexample: at hour 12 (business hours) with all noise zero the
tick appends energy 600, not the 400 the claim requires (the code computes
`400 + 200 * scale`, not `400 * scale`). -/
theorem energy_business_hours_counterexample :
    (generate_tick 0 12 dTR (init0 1 dIR)).energy_consumption.getLastD 0 = 600 ∧
    ((600 : ℚ) ≠ 400) := by
  constructor
  · rw [generate_tick_energy, appendBounded_getLastD (by decide)]
    show energy_base 12 + dTR.g_energy = 600
    norm_num [energy_base, dTR]
  · norm_num

/-- C4 (amended): the appended energy value is `energy_base hour` plus the
Gaussian draw (σ=50), where `energy_base hour` is 400 + 200·1 = 600 during
business hours (9..18) and 400 + 200·0.3 = 460 otherwise. -/
theorem energy_consumption_formula (s : GenState) (now hour : ℕ) (r : TickRand)
    (h : 0 < s.max_points) :
    (generate_tick now hour r s).energy_consumption ≠ [] ∧
    (generate_tick now hour r s).energy_consumption.getLastD 0
      = energy_base hour + r.g_energy ∧
    energy_base hour = (if 9 ≤ hour ∧ hour ≤ 18 then (600 : ℚ) else 460) := by
  refine ⟨?_, ?_, ?_⟩
  · rw [generate_tick_energy]; exact appendBounded_ne_nil h _ _
  · rw [generate_tick_energy, appendBounded_getLastD h]
  · unfold energy_base
    split_ifs <;> norm_num

/-- Witness for C4 (amended) at hour 12, capacity 1, zero noise. -/
theorem energy_consumption_formula_witness :
    (generate_tick 0 12 dTR (init0 1 dIR)).energy_consumption ≠ [] ∧
    (generate_tick 0 12 dTR (init0 1 dIR)).energy_consumption.getLastD 0
      = energy_base 12 + dTR.g_energy ∧
    energy_base 12 = (if 9 ≤ 12 ∧ 12 ≤ 18 then (600 : ℚ) else 460) :=
  energy_consumption_formula (init0 1 dIR) 0 12 dTR (by decide)

/-- C1: after construction and any further sequence of ticks the seven
global sequences have identical length, and one more tick advances every
channel's length by the same rule (one element appended, with eviction once
the capacity is reached). -/
theorem ticks_preserve_equal_length (mp : ℤ) (ir : SensorId → InitSensorRand)
    (boot ticks : List TickInput) (s0 : GenState) (now hour : ℕ) (r : TickRand)
    (h : pyInit mp ir boot = .ok s0) :
    EqLen (foldTicks ticks s0) ∧
    (generate_tick now hour r (foldTicks ticks s0)).timestamps.length
      = min ((foldTicks ticks s0).timestamps.length + 1) (foldTicks ticks s0).max_points ∧
    (generate_tick now hour r (foldTicks ticks s0)).temperature.length
      = min ((foldTicks ticks s0).temperature.length + 1) (foldTicks ticks s0).max_points ∧
    (generate_tick now hour r (foldTicks ticks s0)).humidity.length
      = min ((foldTicks ticks s0).humidity.length + 1) (foldTicks ticks s0).max_points ∧
    (generate_tick now hour r (foldTicks ticks s0)).aqi.length
      = min ((foldTicks ticks s0).aqi.length + 1) (foldTicks ticks s0).max_points ∧
    (generate_tick now hour r (foldTicks ticks s0)).traffic_density.length
      = min ((foldTicks ticks s0).traffic_density.length + 1) (foldTicks ticks s0).max_points ∧
    (generate_tick now hour r (foldTicks ticks s0)).vehicle_speed.length
      = min ((foldTicks ticks s0).vehicle_speed.length + 1) (foldTicks ticks s0).max_points ∧
    (generate_tick now hour r (foldTicks ticks s0)).energy_consumption.length
      = min ((foldTicks ticks s0).energy_consumption.length + 1) (foldTicks ticks s0).max_points := by
  obtain rfl := pyInit_ok mp ir boot s0 h
  refine ⟨?_, ?_, ?_, ?_, ?_, ?_, ?_, ?_⟩
  · rw [← foldTicks_append]
    obtain ⟨h1, h2, h3, h4, h5, h6, h7⟩ := foldTicks_init0_lengths mp.toNat ir (boot ++ ticks)
    unfold EqLen
    refine ⟨?_, ?_, ?_, ?_, ?_, ?_⟩ <;> omega
  all_goals
    simp only [generate_tick_timestamps, generate_tick_temperature, generate_tick_humidity,
      generate_tick_aqi, generate_tick_traffic_density, generate_tick_vehicle_speed,
      generate_tick_energy, appendBounded_length]

/-- Witness for C1: capacity 5, empty warm-up list, no further ticks. -/
theorem ticks_preserve_equal_length_witness :
    EqLen (foldTicks [] (init0 5 dIR)) ∧
    (generate_tick 0 0 dTR (foldTicks [] (init0 5 dIR))).timestamps.length
      = min ((foldTicks [] (init0 5 dIR)).timestamps.length + 1) (foldTicks [] (init0 5 dIR)).max_points ∧
    (generate_tick 0 0 dTR (foldTicks [] (init0 5 dIR))).temperature.length
      = min ((foldTicks [] (init0 5 dIR)).temperature.length + 1) (foldTicks [] (init0 5 dIR)).max_points ∧
    (generate_tick 0 0 dTR (foldTicks [] (init0 5 dIR))).humidity.length
      = min ((foldTicks [] (init0 5 dIR)).humidity.length + 1) (foldTicks [] (init0 5 dIR)).max_points ∧
    (generate_tick 0 0 dTR (foldTicks [] (init0 5 dIR))).aqi.length
      = min ((foldTicks [] (init0 5 dIR)).aqi.length + 1) (foldTicks [] (init0 5 dIR)).max_points ∧
    (generate_tick 0 0 dTR (foldTicks [] (init0 5 dIR))).traffic_density.length
      = min ((foldTicks [] (init0 5 dIR)).traffic_density.length + 1) (foldTicks [] (init0 5 dIR)).max_points ∧
    (generate_tick 0 0 dTR (foldTicks [] (init0 5 dIR))).vehicle_speed.length
      = min ((foldTicks [] (init0 5 dIR)).vehicle_speed.length + 1) (foldTicks [] (init0 5 dIR)).max_points ∧
    (generate_tick 0 0 dTR (foldTicks [] (init0 5 dIR))).energy_consumption.length
      = min ((foldTicks [] (init0 5 dIR)).energy_consumption.length + 1) (foldTicks [] (init0 5 dIR)).max_points :=
  ticks_preserve_equal_length 5 dIR [] [] (init0 5 dIR) 0 0 dTR rfl

/-- C2 counterexample: constructing with capacity 500 and then calling tick
zero times leaves sequences of length 50 — the constructor itself runs 50
warm-up ticks — not min(0, 500) = 0, and the snapshot right after
construction is not empty. -/
theorem construction_not_empty_counterexample :
    (pyInit 500 dIR (List.replicate 50 dTI)).toOption.map
      (fun s => (foldTicks [] s).temperature.length) = some 50 ∧
    (50 : ℕ) ≠ min 0 500 := by
  exact ⟨rfl, by decide⟩

/-- C2 (amended): with the 50 constructor warm-up ticks accounted for, after
construction at capacity C and N further ticks every one of the seven
sequences has length min(50 + N, C); and before any append (the state the
constructor builds before its warm-up loop) all seven sequences are empty. -/
theorem lengths_after_construction (C : ℕ) (ir : SensorId → InitSensorRand)
    (boot ticks : List TickInput) (s0 : GenState)
    (h : pyInit (C : ℤ) ir boot = .ok s0) (hb : boot.length = 50) :
    (foldTicks ticks s0).timestamps.length = min (50 + ticks.length) C ∧
    (foldTicks ticks s0).temperature.length = min (50 + ticks.length) C ∧
    (foldTicks ticks s0).humidity.length = min (50 + ticks.length) C ∧
    (foldTicks ticks s0).aqi.length = min (50 + ticks.length) C ∧
    (foldTicks ticks s0).traffic_density.length = min (50 + ticks.length) C ∧
    (foldTicks ticks s0).vehicle_speed.length = min (50 + ticks.length) C ∧
    (foldTicks ticks s0).energy_consumption.length = min (50 + ticks.length) C ∧
    (init0 C ir).timestamps = [] ∧
    (init0 C ir).temperature = [] ∧
    (init0 C ir).humidity = [] ∧
    (init0 C ir).aqi = [] ∧
    (init0 C ir).traffic_density = [] ∧
    (init0 C ir).vehicle_speed = [] ∧
    (init0 C ir).energy_consumption = [] := by
  obtain rfl := pyInit_ok _ _ _ _ h
  rw [Int.toNat_natCast, ← foldTicks_append]
  obtain ⟨h1, h2, h3, h4, h5, h6, h7⟩ := foldTicks_init0_lengths C ir (boot ++ ticks)
  rw [List.length_append, hb] at h1 h2 h3 h4 h5 h6 h7
  exact ⟨h1, h2, h3, h4, h5, h6, h7, rfl, rfl, rfl, rfl, rfl, rfl, rfl⟩

/-- Witness for C2 (amended): capacity 3, the 50 warm-up ticks, no further
ticks; all lengths come out as min(50, 3) = 3. -/
theorem lengths_after_construction_witness :
    (foldTicks [] (foldTicks (List.replicate 50 dTI) (init0 3 dIR))).timestamps.length
      = min (50 + List.length ([] : List TickInput)) 3 ∧
    (foldTicks [] (foldTicks (List.replicate 50 dTI) (init0 3 dIR))).temperature.length
      = min (50 + List.length ([] : List TickInput)) 3 ∧
    (foldTicks [] (foldTicks (List.replicate 50 dTI) (init0 3 dIR))).humidity.length
      = min (50 + List.length ([] : List TickInput)) 3 ∧
    (foldTicks [] (foldTicks (List.replicate 50 dTI) (init0 3 dIR))).aqi.length
      = min (50 + List.length ([] : List TickInput)) 3 ∧
    (foldTicks [] (foldTicks (List.replicate 50 dTI) (init0 3 dIR))).traffic_density.length
      = min (50 + List.length ([] : List TickInput)) 3 ∧
    (foldTicks [] (foldTicks (List.replicate 50 dTI) (init0 3 dIR))).vehicle_speed.length
      = min (50 + List.length ([] : List TickInput)) 3 ∧
    (foldTicks [] (foldTicks (List.replicate 50 dTI) (init0 3 dIR))).energy_consumption.length
      = min (50 + List.length ([] : List TickInput)) 3 ∧
    (init0 3 dIR).timestamps = [] ∧
    (init0 3 dIR).temperature = [] ∧
    (init0 3 dIR).humidity = [] ∧
    (init0 3 dIR).aqi = [] ∧
    (init0 3 dIR).traffic_density = [] ∧
    (init0 3 dIR).vehicle_speed = [] ∧
    (init0 3 dIR).energy_consumption = [] :=
  lengths_after_construction 3 dIR (List.replicate 50 dTI) []
    (foldTicks (List.replicate 50 dTI) (init0 3 dIR)) rfl rfl

/-- C6: eviction is FIFO.  For any capacity C > 0, after C + 1 ticks on a
freshly constructed generator the whole timestamp sequence equals the tick
timestamps with the first dropped, so the oldest surviving timestamp is the
2nd tick's and the newest is the (C+1)-th tick's. -/
theorem fifo_eviction (C : ℕ) (ir : SensorId → InitSensorRand)
    (boot ticks : List TickInput) (s0 : GenState)
    (hC : 0 < C) (h : pyInit (C : ℤ) ir boot = .ok s0)
    (hlen : ticks.length = C + 1) :
    (foldTicks ticks s0).timestamps = (ticks.map TickInput.now).drop 1 ∧
    (foldTicks ticks s0).timestamps.head? = (ticks.map TickInput.now)[1]? ∧
    (foldTicks ticks s0).timestamps.getLast? = (ticks.map TickInput.now).getLast? := by
  obtain rfl := pyInit_ok _ _ _ _ h
  rw [Int.toNat_natCast]
  set s0 := foldTicks boot (init0 C ir) with hs0
  have hmp : s0.max_points = C := by rw [hs0, foldTicks_max_points, init0_max_points]
  have hts : s0.timestamps.length ≤ C := by
    have h1 := (foldTicks_init0_lengths C ir boot).1
    rw [← hs0] at h1
    omega
  have key : (foldTicks ticks s0).timestamps = (ticks.map TickInput.now).drop 1 := by
    rw [foldTicks_timestamps ticks s0 (by rw [hmp]; exact hts), hmp,
      rtake_append_right C _ _ (by rw [List.length_map, hlen]; omega)]
    simp only [List.rtake, List.length_map, hlen]
    congr 1
    omega
  refine ⟨key, ?_, ?_⟩
  · rw [key, head_drop_one]
  · rw [key, getLast_drop_one _ (by rw [List.length_map, hlen]; omega)]

/-- Witness for C6: capacity 1, empty warm-up list, two ticks with
timestamps 100 and 200; the surviving sequence is [200]. -/
theorem fifo_eviction_witness :
    (foldTicks [tA, tB] (init0 1 dIR)).timestamps = ([tA, tB].map TickInput.now).drop 1 ∧
    (foldTicks [tA, tB] (init0 1 dIR)).timestamps.head? = ([tA, tB].map TickInput.now)[1]? ∧
    (foldTicks [tA, tB] (init0 1 dIR)).timestamps.getLast? = ([tA, tB].map TickInput.now).getLast? :=
  fifo_eviction 1 dIR [] [tA, tB] (init0 1 dIR) (by decide) rfl rfl

/-- C7 counterexample: the claim fails for the per-location values.  The
snapshot's `sensor_values` entry is a live reference
(`'sensor_values': self.sensor_values`), so after one further tick a read
through the earlier snapshot yields the mutated downtown temperature 23, no
longer the 22 it held when the snapshot was taken. -/
theorem snapshot_aliasing_counterexample :
    (snapshot_sensor_values_read (generate_tick 0 0 rBump (init0 1 dIR))
        SensorId.downtown).temperature = 23 ∧
    (snapshot_sensor_values_read (init0 1 dIR) SensorId.downtown).temperature = 22 ∧
    ((23 : ℚ) ≠ 22) := by
  refine ⟨?_, ?_, by norm_num⟩
  · show ((generate_tick 0 0 rBump (init0 1 dIR)).sensor_values SensorId.downtown).temperature = 23
    rw [generate_tick_sensor_values]
    show ((init0 1 dIR).sensor_values SensorId.downtown).temperature
        + ((rBump.sensor SensorId.downtown).g_temp) = 23
    norm_num [init0, init_sensor, dIR, rBump, dSR, dTR]
  · show ((init0 1 dIR).sensor_values SensorId.downtown).temperature = 22
    norm_num [init0, init_sensor, dIR]

/-- C7 (amended): the seven sequences in a snapshot are copies
(`list(...)`), so a later read of them returns the snapshot-time value
whatever the generator state has become, and the `sensors` location table —
although handed out by reference — is never mutated by ticks; only the
per-location `sensor_values` read through an earlier snapshot changes. -/
theorem snapshot_frame_conditions (s : GenState) (ticks : List TickInput)
    (later : GenState) :
    snapshot_lists_read s later = get_current_data s ∧
    snapshot_sensors_read (foldTicks ticks s) = snapshot_sensors_read s :=
  ⟨rfl, foldTicks_sensors ticks s⟩

/-- C8 counterexample: construction with capacity 0 succeeds (`deque`
accepts `maxlen=0`), though the claim requires failure for every capacity
≤ 0; and a negative capacity raises deque's `ValueError` rather than any
`ConfigurationError` (no such validation exists in the code). -/
theorem init_validation_counterexample :
    (pyInit 0 dIR (List.replicate 50 dTI)).isOk = true ∧
    pyInit (-1) dIR (List.replicate 50 dTI) = .error .valueError :=
  ⟨rfl, rfl⟩

/-- C8 (amended): construction performs no validation of its own — it
succeeds exactly when the capacity is ≥ 0 (capacity 0 included), the only
failure being `deque`'s `ValueError` on a negative capacity; the location
set is hard-coded and non-empty, not a parameter. -/
theorem init_succeeds_iff_nonneg (mp : ℤ) (ir : SensorId → InitSensorRand)
    (boot : List TickInput) :
    (pyInit mp ir boot).isOk = true ↔ 0 ≤ mp := by
  unfold pyInit
  split_ifs with hneg <;> simp [Except.isOk, Except.toBool] <;> omega
